import Mathlib

/-!
Shallow embedding of `plugin.go` from the go-migrate-tracer repository
(package `gorm_migrate_tracker`).

The file models, faithfully to the source:
  * the `SchemaVersion` record (struct, lines 14-19) with its
    `gorm:"uniqueIndex"` tag on `Version`;
  * the ledger table and `db.Create` on it (insert with surrogate-id
    assignment and the unique constraint on `version`);
  * `GetMigrationHistory` (lines 142-154): `ORDER BY applied_at desc`;
  * the hook callbacks `beforeAutoMigrate` (lines 72-77) and
    `afterAutoMigrate` (lines 80-113), `generateChangeLog` (lines 116-139);
  * `Initialize` (lines 40-69) over a model of the host's callback registry;
  * a whole synchronization event as the host drives it: before-callback,
    delegated schema sync (external, may fail), after-callback.

Go's `time.Time` is modelled by its calendar components, since the only
observations the source makes of a time value are `Format("20060102150405")`
and the storage-level ordering of the `applied_at` column.  Wall-clock
readings (`time.Now()`) are passed to the callbacks as explicit arguments.
-/

namespace GormMigrateTracker

/-- Wall-clock time at second precision: the components of a Go `time.Time`
that the plugin observes (it formats with layout `"20060102150405"` and the
database orders records by the timestamp column). -/
structure GoTime where
  year : Nat
  month : Nat
  day : Nat
  hour : Nat
  minute : Nat
  second : Nat
deriving DecidableEq, Repr

/-- Chronological key of a time: lexicographic packing of the calendar
components.  For calendar-valid times this agrees with Go's time ordering. -/
def GoTime.key (t : GoTime) : Nat :=
  ((((t.year * 100 + t.month) * 100 + t.day) * 100 + t.hour) * 100
      + t.minute) * 100 + t.second

/-- Zero-pad the decimal representation of `n` to width `w`, as Go's
`Format` does for each component of the layout `"20060102150405"`. -/
def padZero (w : Nat) (n : Nat) : String :=
  let s := toString n
  String.mk (List.replicate (w - s.length) '0') ++ s

/-- Go `t.Format("20060102150405")` (plugin.go line 92): the fourteen-digit
`yyyyMMddHHmmss` rendering of `t`. -/
def GoTime.format14 (t : GoTime) : String :=
  padZero 4 t.year ++ padZero 2 t.month ++ padZero 2 t.day ++
    padZero 2 t.hour ++ padZero 2 t.minute ++ padZero 2 t.second

/-- The persisted record (plugin.go lines 14-19): surrogate `ID` assigned by
storage, `Version` with a unique index, `AppliedAt` timestamp, free-text
`Changes`. -/
structure SchemaVersion where
  id : Nat
  version : String
  appliedAt : GoTime
  changes : String
deriving DecidableEq, Repr

/-- The `schema_versions` table: the stored records in insertion order. -/
abbrev Ledger := List SchemaVersion

/-- Storage semantics of `db.Create(&schemaVersion)` on the table declared by
the `SchemaVersion` struct: the insert assigns the next surrogate id and the
`gorm:"uniqueIndex"` tag on `Version` (line 16) makes the insert fail with a
constraint error when the version label already exists, leaving the table
unchanged. -/
def dbCreate (l : Ledger) (version : String) (appliedAt : GoTime)
    (changes : String) : Except String Ledger :=
  if l.any (fun r => r.version = version) then
    .error "UNIQUE constraint failed: schema_versions.version"
  else
    .ok (l ++ [{ id := l.length + 1, version := version,
                 appliedAt := appliedAt, changes := changes }])

/-- Value found under the session setting `"gorm:auto_migrate_models"`
(plugin.go line 120).  The source only observes whether the value is a
`[]interface{}` and, for each element, `reflect.TypeOf(model).Name()`;
so a slice is modelled by the list of its elements' reflected type names,
and any other value by `notSlice`. -/
inductive ModelsValue where
  | slice (names : List String)
  | notSlice
deriving DecidableEq, Repr

/-- The per-event session state the callbacks read and write: the instance
setting `"automigrate_plugin:start_time"`, the setting
`"gorm:auto_migrate_models"`, the error channel fed by `db.AddError`, and
the `schema_versions` table reachable through the session. -/
structure DB where
  instStartTime : Option GoTime
  autoMigrateModels : Option ModelsValue
  errors : List String
  ledger : Ledger
deriving DecidableEq, Repr

/-- Branch structure of `generateChangeLog` (plugin.go lines 116-139) on the
observed `"gorm:auto_migrate_models"` value: absent key falls back to the
sentinel; a non-slice value yields the fallback string; a slice accumulates
`changes += "AutoMigrated <name>\n"` per element, starting from the empty
string. -/
def changeLogOf : Option ModelsValue → String
  | some (ModelsValue.slice names) =>
      names.foldl (fun changes name => changes ++ ("AutoMigrated " ++ name ++ "\n")) ""
  | some ModelsValue.notSlice => "Unable to determine migrated models"
  | none => "No specific models found, general AutoMigrate performed"

/-- The method `generateChangeLog` (plugin.go lines 116-139): reads
`db.Get("gorm:auto_migrate_models")` and derives the description. -/
def generateChangeLog (db : DB) : String :=
  changeLogOf db.autoMigrateModels

/-- The callback `beforeAutoMigrate` (plugin.go lines 72-77): capture
`time.Now()` into the instance setting `"automigrate_plugin:start_time"`.
The clock reading is the explicit argument `now`. -/
def beforeAutoMigrate (now : GoTime) (db : DB) : DB :=
  { db with instStartTime := some now }

/-- The callback `afterAutoMigrate` (plugin.go lines 80-113).  If the start
time is absent, `db.AddError(fmt.Errorf("start time not found"))` and return.
Otherwise format the start time as the version, derive the change log, and
`db.Create` a record with `AppliedAt` taken from a fresh `time.Now()` reading
(the explicit argument `now`); a failed create is reported through
`db.AddError`, a successful one updates the table. -/
def afterAutoMigrate (now : GoTime) (db : DB) : DB :=
  match db.instStartTime with
  | none => { db with errors := db.errors ++ ["start time not found"] }
  | some startTime =>
      let version := startTime.format14
      let changes := generateChangeLog db
      match dbCreate db.ledger version now changes with
      | .error e =>
          { db with errors := db.errors ++ ["failed to record schema version: " ++ e] }
      | .ok l => { db with ledger := l }

/-- One schema-synchronization event as the host drives it through the
extension point: the before-callback runs with clock reading `startNow`, the
host delegates the actual schema synchronization (external; when it fails the
host records the failure on the session's error channel, and the registered
callbacks still run, GORM executing every compiled callback unconditionally),
then the after-callback runs with clock reading `recordNow`. -/
def runSyncEvent (startNow recordNow : GoTime) (delegationError : Option String)
    (db : DB) : DB :=
  let db1 := beforeAutoMigrate startNow db
  let db2 :=
    match delegationError with
    | some e => { db1 with errors := db1.errors ++ [e] }
    | none => db1
  afterAutoMigrate recordNow db2

/-- Descending order on `applied_at`: record `a` comes no later than `b` in
the query result when `b`'s timestamp is at most `a`'s. -/
def appliedDesc (a b : SchemaVersion) : Prop :=
  b.appliedAt.key ≤ a.appliedAt.key

instance : DecidableRel appliedDesc :=
  fun a b => inferInstanceAs (Decidable (b.appliedAt.key ≤ a.appliedAt.key))

instance : IsTotal SchemaVersion appliedDesc :=
  ⟨fun a b => Nat.le_total b.appliedAt.key a.appliedAt.key⟩

instance : IsTrans SchemaVersion appliedDesc :=
  ⟨fun _ _ _ h1 h2 => Nat.le_trans h2 h1⟩

/-- The function `GetMigrationHistory` (plugin.go lines 142-154):
`db.Order("applied_at desc").Find(&history)` — all stored records, sorted by
`applied_at` descending (the storage engine promises only the ordering by
that column; the model uses a stable sort, which is one correct realisation). -/
def GetMigrationHistory (l : Ledger) : List SchemaVersion :=
  List.insertionSort appliedDesc l

/-- Host-side state touched by `Initialize`: whether the `schema_versions`
table exists, and the compiled migrator-callback set of the host.  GORM
compiles its callback list to one installed handler per callback name, the
most recently registered one; the map sends each name to the tag of the
handler installed under it. -/
structure HostState where
  tableExists : Bool
  hooks : String → Option String

/-- Host capability `db.AutoMigrate(&SchemaVersion{})` (plugin.go line 45) in
the expected-shape scenario: creates the table when absent and succeeds when
it already exists — the idempotent `ensureInitialized` capability the plugin
delegates to. -/
def autoMigrateSchemaVersionTable (s : HostState) : Except String HostState :=
  .ok { s with tableExists := true }

/-- Host capability `db.Callback().Migrator().Register(name, fn)`: installs
`handler` under `name` in the compiled callback set; registering a name again
replaces the compiled entry (GORM only logs a warning for the duplicate) and
does not fail. -/
def registerCallback (s : HostState) (name handler : String) : HostState :=
  { s with hooks := fun n => if n = name then some handler else s.hooks n }

/-- The method `Initialize` (plugin.go lines 40-69): ensure the
`SchemaVersion` table exists (propagating a failure as
`failed to create schema version table`), then register the before- and
after-callbacks.  In the compiled-callback model registration is total, so
the source's propagation of a registration failure has no error case left to
take. -/
def Initialize (s : HostState) : Except String HostState :=
  match autoMigrateSchemaVersionTable s with
  | .error e => .error ("failed to create schema version table: " ++ e)
  | .ok s1 =>
      let s2 := registerCallback s1 "automigrate_plugin:before_auto_migrate"
        "beforeAutoMigrate"
      let s3 := registerCallback s2 "automigrate_plugin:after_auto_migrate"
        "afterAutoMigrate"
      .ok s3

/-- N successive calls of `Initialize` on the same host context, stopping at
the first failure. -/
def InitializeN : Nat → HostState → Except String HostState
  | 0, s => .ok s
  | n + 1, s =>
      match Initialize s with
      | .error e => .error e
      | .ok s1 => InitializeN n s1

/-- Description of a synchronized batch following the specification's words
literally: one line `AutoMigrated <EntityName>` per entity, newline-separated
(a separator between consecutive lines, none trailing), in host order.
Compared against `changeLogOf`, the derivation the source implements. -/
def changesNewlineSeparatedSpec (names : List String) : String :=
  String.intercalate "\n" (names.map (fun n => "AutoMigrated " ++ n))

/-- Session state with nothing set, no accumulated error and an empty
`schema_versions` table: the state concrete scenarios start from. -/
def dbEmpty : DB :=
  { instStartTime := none, autoMigrateModels := none, errors := [], ledger := [] }

/-- Helper: when the start-time version label is fresh in the table, a
synchronization event appends exactly one record — id the next surrogate,
version the formatted start time, appliedAt the record-time clock reading,
changes the derived description — whether or not delegation failed. -/
theorem runSyncEvent_ledger_append (t r : GoTime) (dErr : Option String) (db : DB)
    (hfresh : db.ledger.any (fun x => x.version = t.format14) = false) :
    (runSyncEvent t r dErr db).ledger =
      db.ledger ++ [{ id := db.ledger.length + 1, version := t.format14,
                      appliedAt := r, changes := changeLogOf db.autoMigrateModels }] := by
  cases dErr <;>
    simp [runSyncEvent, beforeAutoMigrate, afterAutoMigrate, generateChangeLog,
      dbCreate, hfresh]

/-- Claim C10: if the after-callback runs without a captured start time, it
writes no ledger record, reports `start time not found` through the session's
error channel, and returns normally. -/
theorem C10_after_without_start (now : GoTime) (db : DB)
    (h : db.instStartTime = none) :
    afterAutoMigrate now db =
      { db with errors := db.errors ++ ["start time not found"] } ∧
    (afterAutoMigrate now db).ledger = db.ledger ∧
    "start time not found" ∈ (afterAutoMigrate now db).errors := by
  simp [afterAutoMigrate, h]

/-- Witness for C10: a session that never ran the before-callback. -/
theorem C10_after_without_start_witness :
    dbEmpty.instStartTime = none ∧
    (afterAutoMigrate ⟨2024, 1, 1, 0, 0, 0⟩ dbEmpty =
        { dbEmpty with errors := dbEmpty.errors ++ ["start time not found"] } ∧
      (afterAutoMigrate ⟨2024, 1, 1, 0, 0, 0⟩ dbEmpty).ledger = dbEmpty.ledger ∧
      "start time not found" ∈ (afterAutoMigrate ⟨2024, 1, 1, 0, 0, 0⟩ dbEmpty).errors) :=
  ⟨rfl, C10_after_without_start ⟨2024, 1, 1, 0, 0, 0⟩ dbEmpty rfl⟩

/-- Claim C7: with no observable entity identity the derived description is
exactly the sentinel string; with a wrongly-shaped models value it is the
fallback string, and the hook still completes the write (derivation never
fails the operation): the concrete event records the fallback description. -/
theorem C7_fallback_descriptions :
    changeLogOf none = "No specific models found, general AutoMigrate performed" ∧
    changeLogOf (some ModelsValue.notSlice) = "Unable to determine migrated models" ∧
    (runSyncEvent ⟨2024, 1, 1, 0, 0, 0⟩ ⟨2024, 1, 1, 0, 0, 1⟩ none
        { instStartTime := none, autoMigrateModels := some ModelsValue.notSlice,
          errors := [], ledger := [] }).ledger =
      [{ id := 1, version := "20240101000000", appliedAt := ⟨2024, 1, 1, 0, 0, 1⟩,
         changes := "Unable to determine migrated models" }] := by
  refine ⟨rfl, rfl, ?_⟩
  rfl

/-- Claim C6 counterexample: for the batch consisting of the single entity
`Order`, the source derives `AutoMigrated Order` followed by a newline, while
the newline-separated concatenation of one line per entity is
`AutoMigrated Order` with no trailing newline; the two differ. -/
theorem C6_counterexample :
    changeLogOf (some (ModelsValue.slice ["Order"])) = "AutoMigrated Order\n" ∧
    changesNewlineSeparatedSpec ["Order"] = "AutoMigrated Order" ∧
    changeLogOf (some (ModelsValue.slice ["Order"])) ≠
      changesNewlineSeparatedSpec ["Order"] := by
  refine ⟨rfl, rfl, ?_⟩
  decide

/-- Claim C6 (amended): for an observable batch, the derived description is
the concatenation of one newline-TERMINATED line `AutoMigrated <EntityName>`
per entity in the batch (each line, the last included, followed by a
newline), in the order the host presents them. -/
theorem C6_batch_change_lines (names : List String) :
    changeLogOf (some (ModelsValue.slice names)) =
      String.join (names.map (fun n => "AutoMigrated " ++ n ++ "\n")) := by
  simp [changeLogOf, String.join, List.foldl_map]

/-- Claim C2 counterexample: a synchronization that starts at
2024-01-01 00:00:00 and records at 2024-01-01 00:00:05 stores the version
`20240101000000` — the formatted START timestamp — which differs from the
recording-moment timestamp formatted in the same pattern. -/
theorem C2_counterexample :
    (runSyncEvent ⟨2024, 1, 1, 0, 0, 0⟩ ⟨2024, 1, 1, 0, 0, 5⟩ none dbEmpty).ledger =
      [{ id := 1, version := "20240101000000", appliedAt := ⟨2024, 1, 1, 0, 0, 5⟩,
         changes := "No specific models found, general AutoMigrate performed" }] ∧
    GoTime.format14 ⟨2024, 1, 1, 0, 0, 5⟩ ≠ "20240101000000" := by
  refine ⟨rfl, ?_⟩
  decide

/-- Claim C2 (amended): every record the hook writes carries as its version
the START timestamp of that synchronization — the clock reading captured by
the before-callback, before delegation — formatted with the Go layout
`20060102150405` (`yyyyMMddHHmmss`); for a synchronization started at time T
the recorded version equals T formatted in that pattern. -/
theorem C2_version_is_formatted_start (t r : GoTime) (dErr : Option String)
    (db : DB)
    (hfresh : db.ledger.any (fun x => x.version = t.format14) = false) :
    ∃ rec, (runSyncEvent t r dErr db).ledger = db.ledger ++ [rec] ∧
      rec.version = t.format14 :=
  ⟨_, runSyncEvent_ledger_append t r dErr db hfresh, rfl⟩

/-- Witness for C2 (amended) at a concrete synchronization event. -/
theorem C2_version_is_formatted_start_witness :
    (dbEmpty.ledger.any
        (fun x => x.version = GoTime.format14 ⟨2024, 1, 1, 0, 0, 0⟩) = false) ∧
    ∃ rec,
      (runSyncEvent ⟨2024, 1, 1, 0, 0, 0⟩ ⟨2024, 1, 1, 0, 0, 5⟩ none dbEmpty).ledger =
        dbEmpty.ledger ++ [rec] ∧
      rec.version = GoTime.format14 ⟨2024, 1, 1, 0, 0, 0⟩ :=
  ⟨rfl, C2_version_is_formatted_start ⟨2024, 1, 1, 0, 0, 0⟩ ⟨2024, 1, 1, 0, 0, 5⟩
    none dbEmpty rfl⟩

/-- Claim C8 counterexample: when the two clock readings of one event fall on
the same instant (nothing in the source prevents it), the written record's
`appliedAt` EQUALS the start timestamp — `appliedAt` is not guaranteed
distinct from the start time. -/
theorem C8_counterexample :
    ((runSyncEvent ⟨2024, 1, 1, 0, 0, 0⟩ ⟨2024, 1, 1, 0, 0, 0⟩ none dbEmpty).ledger.map
        SchemaVersion.appliedAt) = [⟨2024, 1, 1, 0, 0, 0⟩] := by
  rfl

/-- Claim C8 (amended): the written record's `appliedAt` is a second clock
reading taken at recording time, and under a monotone clock (record reading
at or after start reading) it is always greater than or equal to the start
timestamp captured before delegation; it is not guaranteed to be strictly
distinct from it. -/
theorem C8_appliedAt_ge_start (t r : GoTime) (dErr : Option String) (db : DB)
    (hclock : t.key ≤ r.key)
    (hfresh : db.ledger.any (fun x => x.version = t.format14) = false) :
    ∃ rec, (runSyncEvent t r dErr db).ledger = db.ledger ++ [rec] ∧
      rec.appliedAt = r ∧ t.key ≤ rec.appliedAt.key :=
  ⟨_, runSyncEvent_ledger_append t r dErr db hfresh, rfl, hclock⟩

/-- Witness for C8 (amended) at a concrete synchronization event. -/
theorem C8_appliedAt_ge_start_witness :
    (GoTime.key ⟨2024, 1, 1, 0, 0, 0⟩ ≤ GoTime.key ⟨2024, 1, 1, 0, 0, 5⟩) ∧
    (dbEmpty.ledger.any
        (fun x => x.version = GoTime.format14 ⟨2024, 1, 1, 0, 0, 0⟩) = false) ∧
    ∃ rec,
      (runSyncEvent ⟨2024, 1, 1, 0, 0, 0⟩ ⟨2024, 1, 1, 0, 0, 5⟩ none dbEmpty).ledger =
        dbEmpty.ledger ++ [rec] ∧
      rec.appliedAt = ⟨2024, 1, 1, 0, 0, 5⟩ ∧
      GoTime.key ⟨2024, 1, 1, 0, 0, 0⟩ ≤ rec.appliedAt.key :=
  ⟨by decide, rfl, C8_appliedAt_ge_start ⟨2024, 1, 1, 0, 0, 0⟩ ⟨2024, 1, 1, 0, 0, 5⟩
    none dbEmpty (by decide) rfl⟩

/-- Claim C1 (code-bug evidence): for a synchronization whose delegated
schema sync FAILED (the host put `sync failed` on the error channel before
the after-callback ran), the after-callback still writes a ledger record —
it never consults the accumulated error — so the history contains a record
attributable to the failed attempt, against the specification's
at-most-one-record-per-successful-sync rule. -/
theorem C1_failed_sync_still_writes_record :
    "sync failed" ∈
      (runSyncEvent ⟨2024, 1, 1, 0, 0, 0⟩ ⟨2024, 1, 1, 0, 0, 5⟩
        (some "sync failed") dbEmpty).errors ∧
    GetMigrationHistory
        (runSyncEvent ⟨2024, 1, 1, 0, 0, 0⟩ ⟨2024, 1, 1, 0, 0, 5⟩
          (some "sync failed") dbEmpty).ledger =
      [{ id := 1, version := "20240101000000", appliedAt := ⟨2024, 1, 1, 0, 0, 5⟩,
         changes := "No specific models found, general AutoMigrate performed" }] := by
  refine ⟨?_, rfl⟩
  decide

/-- Claim C3: two synchronization events whose start times fall in the same
second produce identical version labels; the first append succeeds, the
second fails on the unique index, the failure is reported through the error
channel (`failed to record schema version: ...`), and the ledger afterwards
retains only the first record for that label. -/
theorem C3_version_conflict (t r1 r2 : GoTime) (db : DB)
    (hfresh : db.ledger.any (fun x => x.version = t.format14) = false) :
    runSyncEvent t r1 none db =
      { db with instStartTime := some t,
                ledger := db.ledger ++
                  [{ id := db.ledger.length + 1, version := t.format14,
                     appliedAt := r1, changes := changeLogOf db.autoMigrateModels }] } ∧
    runSyncEvent t r2 none (runSyncEvent t r1 none db) =
      { db with instStartTime := some t,
                errors := db.errors ++
                  ["failed to record schema version: UNIQUE constraint failed: schema_versions.version"],
                ledger := db.ledger ++
                  [{ id := db.ledger.length + 1, version := t.format14,
                     appliedAt := r1, changes := changeLogOf db.autoMigrateModels }] } := by
  constructor
  · simp [runSyncEvent, beforeAutoMigrate, afterAutoMigrate, generateChangeLog,
      dbCreate, hfresh]
  · simp [runSyncEvent, beforeAutoMigrate, afterAutoMigrate, generateChangeLog,
      dbCreate, hfresh, List.any_append]

/-- Witness for C3 at a concrete pair of events sharing the start second. -/
theorem C3_version_conflict_witness :
    (dbEmpty.ledger.any
        (fun x => x.version = GoTime.format14 ⟨2024, 1, 1, 0, 0, 0⟩) = false) ∧
    (runSyncEvent ⟨2024, 1, 1, 0, 0, 0⟩ ⟨2024, 1, 1, 0, 0, 1⟩ none dbEmpty =
      { dbEmpty with instStartTime := some ⟨2024, 1, 1, 0, 0, 0⟩,
                     ledger := dbEmpty.ledger ++
                       [{ id := dbEmpty.ledger.length + 1,
                          version := GoTime.format14 ⟨2024, 1, 1, 0, 0, 0⟩,
                          appliedAt := ⟨2024, 1, 1, 0, 0, 1⟩,
                          changes := changeLogOf dbEmpty.autoMigrateModels }] } ∧
    runSyncEvent ⟨2024, 1, 1, 0, 0, 0⟩ ⟨2024, 1, 1, 0, 0, 2⟩ none
        (runSyncEvent ⟨2024, 1, 1, 0, 0, 0⟩ ⟨2024, 1, 1, 0, 0, 1⟩ none dbEmpty) =
      { dbEmpty with instStartTime := some ⟨2024, 1, 1, 0, 0, 0⟩,
                     errors := dbEmpty.errors ++
                       ["failed to record schema version: UNIQUE constraint failed: schema_versions.version"],
                     ledger := dbEmpty.ledger ++
                       [{ id := dbEmpty.ledger.length + 1,
                          version := GoTime.format14 ⟨2024, 1, 1, 0, 0, 0⟩,
                          appliedAt := ⟨2024, 1, 1, 0, 0, 1⟩,
                          changes := changeLogOf dbEmpty.autoMigrateModels }] }) :=
  ⟨rfl, C3_version_conflict ⟨2024, 1, 1, 0, 0, 0⟩ ⟨2024, 1, 1, 0, 0, 1⟩
    ⟨2024, 1, 1, 0, 0, 2⟩ dbEmpty rfl⟩

/-- Claim C4: `GetMigrationHistory` returns all stored records (a permutation
of the table) ordered by `appliedAt` descending, and on a table holding
records with `appliedAt` at t1, t2, t3 where t1 < t2 < t3 it returns them as
the sequence third, second, first. -/
theorem C4_history_sorted_desc (l : Ledger) (r1 r2 r3 : SchemaVersion)
    (h12 : r1.appliedAt.key < r2.appliedAt.key)
    (h23 : r2.appliedAt.key < r3.appliedAt.key) :
    (GetMigrationHistory l).Perm l ∧
    (GetMigrationHistory l).Pairwise appliedDesc ∧
    GetMigrationHistory [r1, r2, r3] = [r3, r2, r1] := by
  have n12 : ¬ appliedDesc r1 r2 := by simp only [appliedDesc]; omega
  have n13 : ¬ appliedDesc r1 r3 := by simp only [appliedDesc]; omega
  have n23 : ¬ appliedDesc r2 r3 := by simp only [appliedDesc]; omega
  refine ⟨List.perm_insertionSort appliedDesc l,
    List.sorted_insertionSort appliedDesc l, ?_⟩
  simp [GetMigrationHistory, List.insertionSort, List.orderedInsert, n12, n13, n23]

/-- Witness for C4 on a concrete three-record table inserted out of order. -/
theorem C4_history_sorted_desc_witness :
    ((⟨1, "a", ⟨2024, 1, 1, 0, 0, 0⟩, "x"⟩ : SchemaVersion).appliedAt.key <
        (⟨2, "b", ⟨2024, 1, 1, 0, 0, 5⟩, "y"⟩ : SchemaVersion).appliedAt.key) ∧
    ((⟨2, "b", ⟨2024, 1, 1, 0, 0, 5⟩, "y"⟩ : SchemaVersion).appliedAt.key <
        (⟨3, "c", ⟨2024, 1, 2, 0, 0, 0⟩, "z"⟩ : SchemaVersion).appliedAt.key) ∧
    ((GetMigrationHistory
          [⟨2, "b", ⟨2024, 1, 1, 0, 0, 5⟩, "y"⟩, ⟨1, "a", ⟨2024, 1, 1, 0, 0, 0⟩, "x"⟩]).Perm
        [⟨2, "b", ⟨2024, 1, 1, 0, 0, 5⟩, "y"⟩, ⟨1, "a", ⟨2024, 1, 1, 0, 0, 0⟩, "x"⟩] ∧
      (GetMigrationHistory
          [⟨2, "b", ⟨2024, 1, 1, 0, 0, 5⟩, "y"⟩,
           ⟨1, "a", ⟨2024, 1, 1, 0, 0, 0⟩, "x"⟩]).Pairwise appliedDesc ∧
      GetMigrationHistory
          [⟨1, "a", ⟨2024, 1, 1, 0, 0, 0⟩, "x"⟩, ⟨2, "b", ⟨2024, 1, 1, 0, 0, 5⟩, "y"⟩,
           ⟨3, "c", ⟨2024, 1, 2, 0, 0, 0⟩, "z"⟩] =
        [⟨3, "c", ⟨2024, 1, 2, 0, 0, 0⟩, "z"⟩, ⟨2, "b", ⟨2024, 1, 1, 0, 0, 5⟩, "y"⟩,
         ⟨1, "a", ⟨2024, 1, 1, 0, 0, 0⟩, "x"⟩]) :=
  ⟨by decide, by decide,
    C4_history_sorted_desc
      [⟨2, "b", ⟨2024, 1, 1, 0, 0, 5⟩, "y"⟩, ⟨1, "a", ⟨2024, 1, 1, 0, 0, 0⟩, "x"⟩]
      ⟨1, "a", ⟨2024, 1, 1, 0, 0, 0⟩, "x"⟩ ⟨2, "b", ⟨2024, 1, 1, 0, 0, 5⟩, "y"⟩
      ⟨3, "c", ⟨2024, 1, 2, 0, 0, 0⟩, "z"⟩ (by decide) (by decide)⟩

/-- Result of one `Initialize` call in the expected-shape scenario: table
present and both callbacks installed under their names. -/
def initResult (s : HostState) : HostState :=
  registerCallback
    (registerCallback { s with tableExists := true }
      "automigrate_plugin:before_auto_migrate" "beforeAutoMigrate")
    "automigrate_plugin:after_auto_migrate" "afterAutoMigrate"

/-- Helper: `Initialize` always succeeds and yields `initResult`. -/
theorem Initialize_eq (s : HostState) : Initialize s = Except.ok (initResult s) :=
  rfl

/-- Helper: applying the initialization effect twice equals applying it once:
the table-creation is idempotent and re-registration replaces each compiled
callback entry with the very handler already installed. -/
theorem initResult_idem (s : HostState) : initResult (initResult s) = initResult s := by
  simp only [initResult, registerCallback]
  congr 1
  funext n
  by_cases h1 : n = "automigrate_plugin:after_auto_migrate"
  · simp [h1]
  · by_cases h2 : n = "automigrate_plugin:before_auto_migrate" <;> simp [h1, h2]

/-- Helper: a fixed point of the initialization effect absorbs any number of
further `Initialize` calls without error. -/
theorem InitializeN_of_fix (n : Nat) (s : HostState) (h : initResult s = s) :
    InitializeN n s = Except.ok s := by
  induction n with
  | zero => rfl
  | succ m ih => simp [InitializeN, Initialize_eq, h, ih]

/-- Claim C5: initialization is idempotent — calling `Initialize` N times
(N at least 1) on the same host context gives the same outcome (table
present, same compiled hooks installed) as calling it once, and repeat calls
never return an error when the storage structure already exists in the
expected shape. -/
theorem C5_initialize_idempotent (s : HostState) (n : Nat) (h : 1 ≤ n) :
    InitializeN n s = Initialize s ∧
    ∃ s1, Initialize s = Except.ok s1 ∧ Initialize s1 = Except.ok s1 := by
  obtain ⟨m, rfl⟩ : ∃ m, n = m + 1 := ⟨n - 1, by omega⟩
  refine ⟨?_, initResult s, Initialize_eq s, by rw [Initialize_eq, initResult_idem]⟩
  have hstep : InitializeN (m + 1) s = InitializeN m (initResult s) := by
    simp [InitializeN, Initialize_eq]
  rw [hstep, InitializeN_of_fix m (initResult s) (initResult_idem s), Initialize_eq]

/-- Host context that has never been initialized. -/
def hostFresh : HostState := { tableExists := false, hooks := fun _ => none }

/-- Witness for C5: three calls on a fresh host context. -/
theorem C5_initialize_idempotent_witness :
    1 ≤ 3 ∧
    (InitializeN 3 hostFresh = Initialize hostFresh ∧
      ∃ s1, Initialize hostFresh = Except.ok s1 ∧ Initialize s1 = Except.ok s1) :=
  ⟨by decide, C5_initialize_idempotent hostFresh 3 (by decide)⟩

end GormMigrateTracker
